import Mathlib

/-!
A shallow embedding of the geometric scoring core of `src/DockQ/DockQ.py`
(residue distance engine, contact classification, composite scoring, chain
grouping and the chain-mapping candidate construction), together with
theorems settling the specification's claims against it.

Numeric conventions: coordinates and thresholds are rationals (the Python
floats carry exact decimal constants in all code paths the claims touch);
residue-pair distances live in `WithTop ℚ` so that a residue without heavy
atoms produces no finite distance.  The two rigid-body fits are performed by
external numerical libraries (`Bio.PDB.Superimposer`, `SVDSuperimposer`);
they are abstracted as function parameters, since no claim constrains their
numerics — only which atom sets are handed to them.
-/

namespace DockQ

/-- An atom: a 3D coordinate, a PDB atom identifier (e.g. "CA") and an
element symbol. -/
structure Atom where
  x : ℚ
  y : ℚ
  z : ℚ
  id : String
  element : String
deriving DecidableEq

/-- A residue is its ordered list of atoms (`residue.get_atoms()`). -/
abbrev Residue := List Atom

/-- A chain is its ordered list of residues. -/
abbrev Chain := List Residue

/-- Squared Euclidean distance between two atoms' coordinates. -/
def sqDist (a b : Atom) : ℚ :=
  (a.x - b.x) ^ 2 + (a.y - b.y) ^ 2 + (a.z - b.z) ^ 2

/-- The non-hydrogen atoms of a residue (`if atom.element != "H"`). -/
def heavyAtoms (r : Residue) : List Atom :=
  r.filter (fun a => a.element != "H")

/-- All-atom residue-pair distance: the minimum squared distance over all
heavy-atom pairs of the two residues, `⊤` when one residue has no heavy
atoms.  This is the blockwise minimum the compiled `residue_distances`
kernel takes over the flattened per-residue coordinate blocks. -/
def resDist (r1 r2 : Residue) : WithTop ℚ :=
  ((heavyAtoms r1).flatMap (fun a => (heavyAtoms r2).map (fun b => sqDist a b))).minimum

/-- The representative atom in Cβ mode:
`res["CB"] if "CB" in res else res["CA"]` (a residue with neither raises a
`KeyError` at runtime; `none` models that no representative exists). -/
def cbAtom (r : Residue) : Option Atom :=
  match r.find? (fun a => a.id == "CB") with
  | some a => some a
  | none => r.find? (fun a => a.id == "CA")

/-- Residue-pair distance in Cβ mode: the squared distance between the two
representative atoms. -/
def cbPairDist (r1 r2 : Residue) : WithTop ℚ :=
  match cbAtom r1, cbAtom r2 with
  | some a, some b => (sqDist a b : WithTop ℚ)
  | _, _ => ⊤

/-- The function `get_residue_distances`: the dense matrix of squared residue-pair
distances, in all-heavy-atom mode or in Cβ mode (`all_atom=False`). -/
def get_residue_distances (chain1 chain2 : Chain) (all_atom : Bool) :
    List (List (WithTop ℚ)) :=
  if all_atom then
    chain1.map (fun r1 => chain2.map (fun r2 => resDist r1 r2))
  else
    chain1.map (fun r1 => chain2.map (fun r2 => cbPairDist r1 r2))

/-- The numpy shape of a residue-distance matrix: (rows, row width). -/
def matrixShape (m : List (List (WithTop ℚ))) : ℕ × ℕ :=
  (m.length, (m.headD []).length)

/-- The number of matrix entries strictly below a squared threshold
(`np.nonzero(np.asarray(distances) < threshold ** 2)[0].shape[0]`). -/
def countBelow (m : List (List (WithTop ℚ))) (t : ℚ) : ℕ :=
  (m.map (fun row => row.countP (fun d => decide (d < (t : WithTop ℚ))))).sum

/-- The function `get_interacting_pairs`: `np.nonzero(distances < threshold)`, as the
row-major list of index pairs whose entry is below the squared threshold. -/
def get_interacting_pairs (m : List (List (WithTop ℚ))) (t : ℚ) : List (ℕ × ℕ) :=
  m.enum.flatMap (fun ir =>
    ir.2.enum.filterMap (fun jd =>
      if jd.2 < (t : WithTop ℚ) then some (ir.1, jd.1) else none))

/-- One alignment column: (model symbol, match marker, native symbol). -/
abbrev AlnColumn := Char × Char × Char

/-- The loop of `get_aligned_residues`: walk the three parallel alignment
tracks, advance each chain's residue iterator at non-gap symbols and collect
the current residue of both chains at columns whose marker is `'|'`.
`lastA`/`lastB` model the Python locals `rA`/`rB`, which keep the most
recently consumed residue across columns.  The aligner never emits a `'|'`
marker in a gap column, so at a match column both residues are freshly
consumed; a match column before any consumed residue would be a `NameError`
at runtime and collects nothing here. -/
def alignLoop : List AlnColumn → Chain → Chain → Option Residue → Option Residue →
    Chain × Chain
  | [], _, _, _, _ => ([], [])
  | c :: rest, resA, resB, lastA, lastB =>
    let rA := if c.1 = '-' then lastA else resA.head?
    let resA' := if c.1 = '-' then resA else resA.tail
    let rB := if c.2.2 = '-' then lastB else resB.head?
    let resB' := if c.2.2 = '-' then resB else resB.tail
    let prev := alignLoop rest resA' resB' rA rB
    if c.2.1 = '|' then
      match rA, rB with
      | some a, some b => (a :: prev.1, b :: prev.2)
      | _, _ => prev
    else prev

/-- The function `get_aligned_residues`: the pair (aligned model residues, aligned native
residues) kept from the exactly-matching alignment columns. -/
def get_aligned_residues (chainA chainB : Chain) (alignment : List AlnColumn) :
    Chain × Chain :=
  alignLoop alignment chainA chainB none none

/-- A well-formed alignment: the `'|'` marker only appears in columns where
neither track holds a gap — guaranteed by the external aligner's output
format (a gap column is marked `'-'`, a mismatch `'.'`). -/
def WellFormedAln (cols : List AlnColumn) : Prop :=
  ∀ c ∈ cols, c.2.1 = '|' → c.1 ≠ '-' ∧ c.2.2 ≠ '-'

/-- The four contact statistics returned by `get_fnat_stats`. -/
structure FnatStats where
  nat_correct : ℕ
  nonnat_count : ℕ
  native_total : ℕ
  model_total : ℕ
deriving DecidableEq

/-- Count of positionally-zipped entry pairs of two matrices satisfying a
predicate. -/
def countZip2 (m1 m2 : List (List (WithTop ℚ))) (p : WithTop ℚ → WithTop ℚ → Bool) : ℕ :=
  ((m1.zip m2).map (fun rr => (rr.1.zip rr.2).countP (fun dd => p dd.1 dd.2))).sum

/-- Modelled from the spec: `get_fnat_stats` is implemented in the compiled
`operations` extension module, which is not part of this repository's Python
sources.  Per §4.3 of the spec, given the sample-space and native-space
matrices of squared distances and the contact threshold: `nat_correct`
counts positions below the squared threshold in both matrices,
`nonnat_count` counts positions below it in the sample matrix but not in the
native one, and `model_total` counts all sample positions below it.  The
third returned statistic is bound to `_` by the caller and left unspecified;
it is modelled as the native-side count. -/
def get_fnat_stats (sampleM refM : List (List (WithTop ℚ))) (threshold : ℚ) :
    FnatStats :=
  { nat_correct := countZip2 sampleM refM (fun s n =>
      decide (s < ((threshold ^ 2 : ℚ) : WithTop ℚ)) &&
      decide (n < ((threshold ^ 2 : ℚ) : WithTop ℚ)))
    nonnat_count := countZip2 sampleM refM (fun s n =>
      decide (s < ((threshold ^ 2 : ℚ) : WithTop ℚ)) &&
      !(decide (n < ((threshold ^ 2 : ℚ) : WithTop ℚ))))
    native_total := countBelow refM (threshold ^ 2)
    model_total := countBelow sampleM (threshold ^ 2) }

/-- The function `f1_formula`. -/
def f1_formula (tp fp p : ℚ) : ℚ := 2 * tp / (tp + fp + p)

/-- The function `dockq_formula`. -/
def dockq_formula (fnat irms Lrms : ℚ) : ℚ :=
  (fnat + 1 / (1 + (irms / 1.5) * (irms / 1.5))
        + 1 / (1 + (Lrms / 8.5) * (Lrms / 8.5))) / 3

/-- The guard `fnat = nat_total and nat_correct / nat_total or 0`: Python's and/or
idiom yields the quotient when the total is nonzero and 0 otherwise (when
the quotient itself is 0.0 the `or` branch returns the equal value 0). -/
def fnat_guarded (nat_correct nat_total : ℕ) : ℚ :=
  if nat_total = 0 then 0 else (nat_correct : ℚ) / (nat_total : ℚ)

/-- The guard `fnonnat = model_total and nonnat_count / model_total or 0`. -/
def fnonnat_guarded (nonnat_count model_total : ℕ) : ℚ :=
  if model_total = 0 then 0 else (nonnat_count : ℚ) / (model_total : ℚ)

/-- The receptor selection in `calc_DockQ`:
`(group1) if ref_group1_size > ref_group2_size else (group2)`. -/
def receptor_chains (g1 g2 : ℕ) (p1 p2 : α) : α :=
  if g1 > g2 then p1 else p2

/-- The ligand selection in `calc_DockQ`:
`(group2) if ref_group1_size <= ref_group2_size else (group1)`. -/
def ligand_chains (g1 g2 : ℕ) (p1 p2 : α) : α :=
  if g1 ≤ g2 then p2 else p1

/-- The labels `class1, class2 = ("receptor", "ligand") if ref_group1_size >
ref_group2_size else ("ligand", "receptor")`. -/
def class_pair (g1 g2 : ℕ) : String × String :=
  if g1 > g2 then ("receptor", "ligand") else ("ligand", "receptor")

/-- The function `get_atoms_per_residue` with `coords=True`: the coordinates of each
residue's atoms whose identifier is among `atom_types`, in chain order. -/
def get_atoms_per_residue (chain : Chain) (atom_types : List String) :
    List (ℚ × ℚ × ℚ) :=
  chain.flatMap (fun r =>
    (r.filter (fun a => decide (a.id ∈ atom_types))).map (fun a => (a.x, a.y, a.z)))

/-- The per-group accumulation loop of `get_interface_atoms`: for each
interface residue index, keep the atoms whose identifier is among
`atom_types` and also occurs among the partner structure's atom identifiers
for that residue.  Returns (model atoms, reference atoms). -/
def interface_atoms_for (idxs : List ℕ) (mod_res ref_res : Chain)
    (atom_types : List String) : List Atom × List Atom :=
  match idxs with
  | [] => ([], [])
  | i :: rest =>
    let ref_atoms := ref_res.getD i []
    let mod_atoms := mod_res.getD i []
    let ref_ids := ref_atoms.map Atom.id
    let mod_ids := mod_atoms.map Atom.id
    let prev := interface_atoms_for rest mod_res ref_res atom_types
    ((mod_atoms.filter (fun a => decide (a.id ∈ atom_types) && decide (a.id ∈ ref_ids))) ++ prev.1,
     (ref_atoms.filter (fun a => decide (a.id ∈ atom_types) && decide (a.id ∈ mod_ids))) ++ prev.2)

/-- The function `get_interface_atoms`.  The Python `set(...)` of each group's interface
indices is modelled by `dedup` (iteration order does not affect any property
stated here: a CPython set of small ints iterates ascending, while the code
only concatenates the per-residue selections).  An out-of-range index — an
`IndexError` at run time — indexes an empty residue here; claim C10 examines
when such indices occur. -/
def get_interface_atoms (interacting_pairs : List (ℕ × ℕ))
    (model_chains ref_chains : List Chain) (atom_types : List String) :
    List Atom × List Atom :=
  let g1 := interface_atoms_for ((interacting_pairs.map Prod.fst).dedup)
    (model_chains.getD 0 []) (ref_chains.getD 0 []) atom_types
  let g2 := interface_atoms_for ((interacting_pairs.map Prod.snd).dedup)
    (model_chains.getD 1 []) (ref_chains.getD 1 []) atom_types
  (g1.1 ++ g2.1, g1.2 ++ g2.2)

/-- The selection `atom_for_sup = ["CA", "C", "N", "O"] if not use_CA_only else ["CA"]`. -/
def atom_for_sup (use_CA_only : Bool) : List String :=
  if use_CA_only then ["CA"] else ["CA", "C", "N", "O"]

/-- The threshold `fnat_threshold = 4.0 if capri_peptide else 5.0`. -/
def fnat_threshold (capri_peptide : Bool) : ℚ :=
  if capri_peptide then 4 else 5

/-- The threshold `interface_threshold = 8.0 if capri_peptide else 10.0`. -/
def interface_threshold (capri_peptide : Bool) : ℚ :=
  if capri_peptide then 8 else 10

/-- The statistic `nat_total`, the number of native contacts, computed on the untouched
native structure (lines 133–136 of `calc_DockQ`). -/
def nat_total_count (ref1 ref2 : Chain) (capri_peptide : Bool) : ℕ :=
  countBelow (get_residue_distances ref1 ref2 true) (fnat_threshold capri_peptide ^ 2)

/-- The `assert` comparing the two aligned distance matrices' shapes: a
failed assertion is a raised `AssertionError` carrying the size-mismatch
message; nothing is truncated or padded. -/
def shape_guard (sampleM refM : List (List (WithTop ℚ))) : Except String Unit :=
  if matrixShape sampleM ≠ matrixShape refM then
    Except.error "Native and model have incompatible sizes"
  else Except.ok ()

/-- The per-interface result record built by `calc_DockQ`. -/
structure DockQInfo where
  F1 : ℚ
  DockQ : ℚ
  irms : ℚ
  Lrms : ℚ
  fnat : ℚ
  nat_correct : ℕ
  nat_total : ℕ
  fnonnat : ℚ
  nonnat_count : ℕ
  model_total : ℕ
  len1 : ℕ
  len2 : ℕ
  class1 : String
  class2 : String
deriving DecidableEq

/-- The function `calc_DockQ`.  Here `superimpose_rms` abstracts `Bio.PDB.Superimposer`
(fit the two interface atom lists onto each other and report the RMSD);
`fit_apply_rms` abstracts the `SVDSuperimposer` ligand step (fit the first
two coordinate lists, apply the transform to the fourth and report its RMSD
against the third, without refitting).  `Except.error` models the failing
`assert`; `Except.ok none` models the `return None` taken when the native
chain pair has no contacts. -/
def calc_DockQ
    (superimpose_rms : List Atom → List Atom → ℚ)
    (fit_apply_rms : List (ℚ × ℚ × ℚ) → List (ℚ × ℚ × ℚ) → List (ℚ × ℚ × ℚ) →
      List (ℚ × ℚ × ℚ) → ℚ)
    (sample_chains ref_chains : Chain × Chain)
    (alignments : List AlnColumn × List AlnColumn)
    (use_CA_only capri_peptide : Bool) :
    Except String (Option DockQInfo) :=
  if nat_total_count ref_chains.1 ref_chains.2 capri_peptide = 0 then
    Except.ok none
  else
    let nat_total := nat_total_count ref_chains.1 ref_chains.2 capri_peptide
    let a1 := get_aligned_residues sample_chains.1 ref_chains.1 alignments.1
    let a2 := get_aligned_residues sample_chains.2 ref_chains.2 alignments.2
    let sample_res_distances := get_residue_distances a1.1 a2.1 true
    let ref_res_distances2 := get_residue_distances a1.2 a2.2 true
    match shape_guard sample_res_distances ref_res_distances2 with
    | Except.error e => Except.error e
    | Except.ok _ =>
      let stats := get_fnat_stats sample_res_distances ref_res_distances2
        (fnat_threshold capri_peptide)
      let fnat := fnat_guarded stats.nat_correct nat_total
      let fnonnat := fnonnat_guarded stats.nonnat_count stats.model_total
      let interface_distances :=
        if capri_peptide then get_residue_distances ref_chains.1 ref_chains.2 false
        else ref_res_distances2
      let interacting_pairs := get_interacting_pairs interface_distances
        (interface_threshold capri_peptide ^ 2)
      let ia := get_interface_atoms interacting_pairs [a1.1, a2.1] [a1.2, a2.2]
        (atom_for_sup use_CA_only)
      let irms := superimpose_rms ia.1 ia.2
      let ref_group1_size := ref_chains.1.length
      let ref_group2_size := ref_chains.2.length
      let rec_pair := receptor_chains ref_group1_size ref_group2_size
        (a1.2, a1.1) (a2.2, a2.1)
      let lig_pair := ligand_chains ref_group1_size ref_group2_size
        (a1.2, a1.1) (a2.2, a2.1)
      let classes := class_pair ref_group1_size ref_group2_size
      let Lrms := fit_apply_rms
        (get_atoms_per_residue rec_pair.1 (atom_for_sup use_CA_only))
        (get_atoms_per_residue rec_pair.2 (atom_for_sup use_CA_only))
        (get_atoms_per_residue lig_pair.1 (atom_for_sup use_CA_only))
        (get_atoms_per_residue lig_pair.2 (atom_for_sup use_CA_only))
      Except.ok (some
        { F1 := f1_formula (stats.nat_correct : ℚ) (stats.nonnat_count : ℚ) (nat_total : ℚ)
          DockQ := dockq_formula fnat irms Lrms
          irms := irms
          Lrms := Lrms
          fnat := fnat
          nat_correct := stats.nat_correct
          nat_total := nat_total
          fnonnat := fnonnat
          nonnat_count := stats.nonnat_count
          model_total := stats.model_total
          len1 := ref_group1_size
          len2 := ref_group2_size
          class1 := classes.1
          class2 := classes.2 })

/-- The function `run_on_chains`: realign each model chain against the corresponding
native chain (the external sequence aligner is the `aligner` oracle; the
numbering mode only changes the alignment it returns) and evaluate
`calc_DockQ`. -/
def run_on_chains
    (superimpose_rms : List Atom → List Atom → ℚ)
    (fit_apply_rms : List (ℚ × ℚ × ℚ) → List (ℚ × ℚ × ℚ) → List (ℚ × ℚ × ℚ) →
      List (ℚ × ℚ × ℚ) → ℚ)
    (aligner : Chain → Chain → List AlnColumn)
    (model_chains native_chains : Chain × Chain)
    (use_CA_only capri_peptide : Bool) : Except String (Option DockQInfo) :=
  calc_DockQ superimpose_rms fit_apply_rms model_chains native_chains
    (aligner model_chains.1 native_chains.1, aligner model_chains.2 native_chains.2)
    use_CA_only capri_peptide

/-- The sequence `itertools.combinations(l, 2)` in iteration order. -/
def combinations2 : List α → List (α × α)
  | [] => []
  | x :: xs => xs.map (fun y => (x, y)) ++ combinations2 xs

/-- The accumulation loop of `run_on_all_native_interfaces`: evaluate each
chain pair, keep the records of the pairs whose result is not `None`, and
propagate a raised error. -/
def runInterfaces (evalPair : String × String → Except String (Option DockQInfo)) :
    List (String × String) → Except String (List ((String × String) × DockQInfo))
  | [] => Except.ok []
  | p :: rest =>
    match evalPair p with
    | Except.error e => Except.error e
    | Except.ok none => runInterfaces evalPair rest
    | Except.ok (some info) =>
      match runInterfaces evalPair rest with
      | Except.error e => Except.error e
      | Except.ok acc => Except.ok ((p, info) :: acc)

/-- The function `run_on_all_native_interfaces`: for every unordered pair of native chain
identifiers of the chain map, evaluate DockQ on the mapped model chains
against the native chains and collect the per-pair records; pairs whose
evaluation returns `None` are left out of the results map. -/
def run_on_all_native_interfaces
    (superimpose_rms : List Atom → List Atom → ℚ)
    (fit_apply_rms : List (ℚ × ℚ × ℚ) → List (ℚ × ℚ × ℚ) → List (ℚ × ℚ × ℚ) →
      List (ℚ × ℚ × ℚ) → ℚ)
    (aligner : Chain → Chain → List AlnColumn)
    (model_structure native_structure : String → Chain)
    (chain_map : List (String × String))
    (use_CA_only capri_peptide : Bool) :
    Except String (List ((String × String) × DockQInfo)) :=
  runInterfaces
    (fun cp =>
      if ((chain_map.lookup cp.1).isSome && (chain_map.lookup cp.2).isSome) then
        run_on_chains superimpose_rms fit_apply_rms aligner
          (model_structure ((chain_map.lookup cp.1).getD ""),
           model_structure ((chain_map.lookup cp.2).getD ""))
          (native_structure cp.1, native_structure cp.2)
          use_CA_only capri_peptide
      else Except.ok none)
    (combinations2 (chain_map.map Prod.fst))

/-- A formatted pairwise alignment: the three parallel tracks as returned by
`format_alignment` (model sequence, match markers, native sequence). -/
structure Alignment where
  seqA : String
  markers : String
  seqB : String
deriving DecidableEq

/-- The cluster-membership condition of `group_model_chains`:
`"." not in matches and ("-" not in seqA or "-" not in seqB)` (the Python
name `matches` is a Lean keyword; `markers` is the match-marker track). -/
def cluster_condition (a : Alignment) : Bool :=
  !(a.markers.contains '.') && (!(a.seqA.contains '-') || !(a.seqB.contains '-'))

/-- The cluster-membership condition following the spec's words for
comparison: the alignment has no mismatches and no gaps on either side. -/
def spec_cluster_condition (a : Alignment) : Bool :=
  !(a.markers.contains '.') && (!(a.seqA.contains '-') && !(a.seqB.contains '-'))

/-- The function `group_model_chains`: every native chain is mapped to the model chains
whose alignment against it (computed by the external aligner, the `aligner`
oracle) satisfies the cluster condition.  The Python loop appends model
chains in `itertools.product` order, i.e. per native chain in model-chain
order, which this `filter` reproduces. -/
def group_model_chains (aligner : String → String → Alignment)
    (model_chains native_chains : List String) : List (String × List String) :=
  native_chains.map (fun nc =>
    (nc, model_chains.filter (fun mc => cluster_condition (aligner mc nc))))

/-- The sequence `itertools.product(*lists)` in iteration order (leftmost varies
slowest). -/
def product_lists : List (List α) → List (List α)
  | [] => [[]]
  | l :: rest => l.flatMap (fun x => (product_lists rest).map (fun t => x :: t))

/-- The candidate chain mappings exactly as `main` builds them:
`itertools.product(*[cluster for cluster in clusters.values() if cluster])`
followed by the injectivity filter `len(set(element)) == len(element)`. -/
def all_mappings_code [DecidableEq α] (clusters : List (List α)) : List (List α) :=
  (product_lists (clusters.filter (fun c => !c.isEmpty))).filter
    (fun m => m.dedup.length == m.length)

/-- Modelled from the spec: the candidate mappings per §4.6 — the Cartesian
product over all native chains of their clusters (no discarding of empty
clusters), filtered to injective mappings. -/
def all_mappings_spec [DecidableEq α] (clusters : List (List α)) : List (List α) :=
  (product_lists clusters).filter (fun m => m.dedup.length == m.length)

/-- The numbering-mode offset of `align_chains`:
`min_resn = max(45, -min(model_numbering + native_numbering))` (`none` when
both chains are empty, where Python's `min` raises). -/
def min_resn (model_numbering native_numbering : List ℤ) : Option ℤ :=
  ((model_numbering ++ native_numbering).min?).map (fun m => max 45 (-m))

/-- The numbering-mode token for residue number `resn`: the code point of
`chr(resn + min_resn)`. -/
def numbering_token (offset resn : ℤ) : ℤ := resn + offset

/-! ## Claim theorems -/

/-- C1: the receptor/ligand assignment of `calc_DockQ` is degenerate — for
every pair of residue counts, `ligand_chains` selects the same chain group
as `receptor_chains` (its two conditional arms are swapped), so the LRMS
step fits and measures one and the same group; moreover at equal residue
counts the labels make the second group the "receptor", not the first.
This evaluates the code's selection at the failing inputs 3 > 2 and the
2 = 2 tie. -/
theorem C1_receptor_equals_ligand :
    (∀ (α : Type) (g1 g2 : ℕ) (p1 p2 : α),
        receptor_chains g1 g2 p1 p2 = ligand_chains g1 g2 p1 p2) ∧
    class_pair 2 2 = ("ligand", "receptor") ∧
    class_pair 3 2 = ("receptor", "ligand") := by
  refine ⟨?_, by decide, by decide⟩
  intro α g1 g2 p1 p2
  unfold receptor_chains ligand_chains
  rcases Nat.lt_or_ge g2 g1 with h | h
  · rw [if_pos h, if_neg (Nat.not_le.mpr h)]
  · rw [if_neg (Nat.not_lt.mpr h), if_pos h]

/-- C2 (counterexample): an alignment with no mismatch markers, a gap in the
model track and none in the native track passes the code's cluster
condition, although it has a gap column — the claim's "no gap columns on
either side" is violated while the model chain is still placed in the
native chain's cluster. -/
theorem C2_gap_one_side_clustered :
    ("n", ["m"]) ∈
      group_model_chains (fun _ _ => ⟨"AC-", "||-", "ACG"⟩) ["m"] ["n"] ∧
    (Alignment.seqA ⟨"AC-", "||-", "ACG"⟩).contains '-' = true ∧
    spec_cluster_condition ⟨"AC-", "||-", "ACG"⟩ = false := by
  with_unfolding_all decide

/-- C2 (amended): a model chain is placed in a native chain's cluster iff
their optimal alignment has no mismatched columns and at least one of the
two sequences has no gap columns (full coverage of one side), rather than
no gaps on both sides. -/
theorem C2_cluster_membership (aligner : String → String → Alignment)
    (model_chains native_chains : List String) (n : String) (cl : List String)
    (m : String)
    (hn : (n, cl) ∈ group_model_chains aligner model_chains native_chains) :
    m ∈ cl ↔
      m ∈ model_chains ∧
      (aligner m n).markers.contains '.' = false ∧
      ((aligner m n).seqA.contains '-' = false ∨
        (aligner m n).seqB.contains '-' = false) := by
  unfold group_model_chains at hn
  simp only [List.mem_map] at hn
  obtain ⟨nc, _, heq⟩ := hn
  injection heq with h1 h2
  subst h1
  subst h2
  rw [List.mem_filter]
  simp [cluster_condition, Bool.and_eq_true, Bool.or_eq_true, Bool.not_eq_true']

/-- C2 (witness for the amended theorem): a perfect-identity alignment of a
single model chain against a single native chain. -/
theorem C2_cluster_membership_witness :
    ("n", ["m"]) ∈
      group_model_chains (fun _ _ => ⟨"AC", "||", "AC"⟩) ["m"] ["n"] ∧
    ("m" ∈ (["m"] : List String) ↔
      "m" ∈ (["m"] : List String) ∧
      (Alignment.markers ⟨"AC", "||", "AC"⟩).contains '.' = false ∧
      ((Alignment.seqA ⟨"AC", "||", "AC"⟩).contains '-' = false ∨
        (Alignment.seqB ⟨"AC", "||", "AC"⟩).contains '-' = false)) :=
  ⟨by with_unfolding_all decide,
   C2_cluster_membership (fun _ _ => ⟨"AC", "||", "AC"⟩) ["m"] ["n"] "n" ["m"] "m"
     (by with_unfolding_all decide)⟩

/-- C3: with native-chain clusters `[["A"], []]` — the second native chain
has an empty cluster — the code's candidate construction
(`itertools.product` over the *non-empty* clusters only, then the
injectivity filter) produces the candidate `["A"]`, whereas the spec's
product over all native chains' clusters is empty; every candidate produced
is shorter than the 2 native chains, so `chain_map = {native_chain:
mapping[i] ...}` indexes past the end of the mapping (an `IndexError`)
instead of surfacing an explicit empty result. -/
theorem C3_empty_cluster_candidates :
    all_mappings_code [["A"], ([] : List String)] = [["A"]] ∧
    all_mappings_spec [["A"], ([] : List String)] = [] ∧
    (all_mappings_code [["A"], ([] : List String)]).all
      (fun mapping => decide (mapping.length < 2)) = true := by decide

/-- C5: the composite scorer computes exactly the spec's formulas:
`F1 = 2*nat_correct/(nat_correct + nonnat_count + nat_total)`,
`DockQ = (Fnat + 1/(1+(iRMS/1.5)^2) + 1/(1+(LRMS/8.5)^2))/3` (the code's
repeated product equals the square), and the guarded fractions
`Fnat = nat_correct/nat_total` (0 when `nat_total = 0`) and
`Fnonnat = nonnat_count/model_total` (0 when `model_total = 0`). -/
theorem C5_scorer_formulas (tp fp p fnat irms Lrms : ℚ) (nc nt fpn mt : ℕ) :
    f1_formula tp fp p = 2 * tp / (tp + fp + p) ∧
    dockq_formula fnat irms Lrms
      = (fnat + 1 / (1 + (irms / 1.5) ^ 2) + 1 / (1 + (Lrms / 8.5) ^ 2)) / 3 ∧
    fnat_guarded nc 0 = 0 ∧
    fnat_guarded nc (nt + 1) = (nc : ℚ) / ((nt : ℚ) + 1) ∧
    fnonnat_guarded fpn 0 = 0 ∧
    fnonnat_guarded fpn (mt + 1) = (fpn : ℚ) / ((mt : ℚ) + 1) := by
  refine ⟨rfl, ?_, by simp [fnat_guarded], ?_, by simp [fnonnat_guarded], ?_⟩
  · unfold dockq_formula
    ring
  · simp only [fnat_guarded, Nat.succ_ne_zero, if_false]
    push_cast
    ring
  · simp only [fnonnat_guarded, Nat.succ_ne_zero, if_false]
    push_cast
    ring

/-- C7: the numbering-based token map `n ↦ chr(n + max(45, -min))` is
injective (the true half of the claim), but it does produce the gap
character: with residue numbers `[0, 1]` on both chains the offset is 45
and residue number 0 is encoded as code point 45, which is `'-'` — the
collision the code's own comment says the offset is chosen to avoid. -/
theorem C7_number_zero_collides_with_gap :
    min_resn [0, 1] [0, 1] = some 45 ∧
    numbering_token 45 0 = 45 ∧
    Char.ofNat 45 = '-' ∧
    (∀ offset m n : ℤ, numbering_token offset m = numbering_token offset n → m = n) := by
  refine ⟨by decide, by decide, by decide, ?_⟩
  intro offset m n h
  simpa [numbering_token] using h

/-- An element fetched with a default is in the list or is the default. -/
lemma getD_mem_or_eq {α : Type} (l : List α) (i : ℕ) (d : α) :
    l.getD i d ∈ l ∨ l.getD i d = d := by
  induction l generalizing i with
  | nil => right; rfl
  | cons a t ih =>
    cases i with
    | zero => left; simp
    | succ n =>
      rcases ih n with h | h
      · left; simp only [List.getD_cons_succ]; exact List.mem_cons_of_mem a h
      · right; simpa using h

/-- Residues fetched from a chain whose residues all have duplicate-free
atom identifiers have duplicate-free atom identifiers. -/
lemma getD_map_nodup {c : Chain} (h : ∀ r ∈ c, (r.map Atom.id).Nodup) (i : ℕ) :
    (((c.getD i []).map Atom.id)).Nodup := by
  rcases getD_mem_or_eq c i [] with hm | hm
  · exact h _ hm
  · rw [hm]; simp

/-- With duplicate-free atom identifiers on both sides, the identifiers
selected from the reference residue are a permutation of those selected
from the model residue: both enumerate the identifiers that are requested
and present in both residues. -/
lemma filter_ids_perm (modA refA : Residue) (types : List String)
    (hm : (modA.map Atom.id).Nodup) (hr : (refA.map Atom.id).Nodup) :
    ((modA.filter (fun a => decide (a.id ∈ types) && decide (a.id ∈ refA.map Atom.id))).map Atom.id).Perm
      ((refA.filter (fun a => decide (a.id ∈ types) && decide (a.id ∈ modA.map Atom.id))).map Atom.id) := by
  rw [List.perm_ext_iff_of_nodup
    (hm.sublist (List.Sublist.map Atom.id (List.filter_sublist modA)))
    (hr.sublist (List.Sublist.map Atom.id (List.filter_sublist refA)))]
  intro s
  simp only [List.mem_map, List.mem_filter, Bool.and_eq_true, decide_eq_true_eq]
  constructor
  · rintro ⟨a, ⟨ham, hts, hrf⟩, rfl⟩
    obtain ⟨b, hbr, hbid⟩ := hrf
    exact ⟨b, ⟨hbr, hbid ▸ hts, ⟨a, ham, hbid.symm⟩⟩, hbid⟩
  · rintro ⟨b, ⟨hbr, hts, hmf⟩, rfl⟩
    obtain ⟨a, ham, haid⟩ := hmf
    exact ⟨a, ⟨ham, haid ▸ hts, ⟨b, hbr, haid.symm⟩⟩, haid⟩

/-- Per-group interface atom selection: with duplicate-free atom
identifiers, the model-side and reference-side selections carry the same
multiset of atom identifiers. -/
lemma interface_atoms_for_perm (idxs : List ℕ) (mod_res ref_res : Chain)
    (types : List String)
    (hm : ∀ r ∈ mod_res, (r.map Atom.id).Nodup)
    (hr : ∀ r ∈ ref_res, (r.map Atom.id).Nodup) :
    ((interface_atoms_for idxs mod_res ref_res types).1.map Atom.id).Perm
      ((interface_atoms_for idxs mod_res ref_res types).2.map Atom.id) := by
  induction idxs with
  | nil => simp [interface_atoms_for]
  | cons i rest ih =>
    simp only [interface_atoms_for, List.map_append]
    exact (filter_ids_perm _ _ types (getD_map_nodup hm i) (getD_map_nodup hr i)).append ih

/-- C9 (counterexample): with a duplicated "CA" atom (an alternate
location) in the reference residue, `get_interface_atoms` returns a model
list of 2 atoms but a reference list of 3 atoms — the equal-length,
atom-for-atom precondition of the superposition step fails; and even with
duplicate-free identifiers, residues listing their atoms in different
orders yield positionally different identifier sequences. -/
theorem C9_duplicate_atoms_break_correspondence :
    ((get_interface_atoms [(0, 0)]
        [[[⟨0, 0, 0, "CA", "C"⟩]], [[⟨0, 0, 0, "N", "N"⟩]]]
        [[[⟨1, 0, 0, "CA", "C"⟩, ⟨2, 0, 0, "CA", "C"⟩]], [[⟨1, 1, 0, "N", "N"⟩]]]
        ["CA", "C", "N", "O"]).1.length = 2 ∧
      (get_interface_atoms [(0, 0)]
        [[[⟨0, 0, 0, "CA", "C"⟩]], [[⟨0, 0, 0, "N", "N"⟩]]]
        [[[⟨1, 0, 0, "CA", "C"⟩, ⟨2, 0, 0, "CA", "C"⟩]], [[⟨1, 1, 0, "N", "N"⟩]]]
        ["CA", "C", "N", "O"]).2.length = 3) ∧
    ((get_interface_atoms [(0, 0)]
        [[[⟨0, 0, 0, "C", "C"⟩, ⟨0, 1, 0, "CA", "C"⟩]], [[]]]
        [[[⟨1, 0, 0, "CA", "C"⟩, ⟨1, 1, 0, "C", "C"⟩]], [[]]]
        ["CA", "C", "N", "O"]).1.map Atom.id = ["C", "CA"] ∧
      (get_interface_atoms [(0, 0)]
        [[[⟨0, 0, 0, "C", "C"⟩, ⟨0, 1, 0, "CA", "C"⟩]], [[]]]
        [[[⟨1, 0, 0, "CA", "C"⟩, ⟨1, 1, 0, "C", "C"⟩]], [[]]]
        ["CA", "C", "N", "O"]).2.map Atom.id = ["CA", "C"]) := by
  with_unfolding_all decide

/-- C9 (amended): for every set of in-range interface residue indices and
every atom-type filter, provided each residue involved has duplicate-free
atom identifiers, `get_interface_atoms` returns model and reference atom
lists of equal length carrying the same multiset of atom identifiers (the
identifiers requested and present on both sides of each interface residue);
with duplicated atoms, such as alternate locations, the lengths can
differ. -/
theorem C9_interface_atoms_correspondence (ip : List (ℕ × ℕ))
    (model_chains ref_chains : List Chain) (types : List String)
    (hn : ∀ c ∈ model_chains ++ ref_chains, ∀ r ∈ c, (r.map Atom.id).Nodup)
    (_hrange : ∀ p ∈ ip,
      p.1 < (model_chains.getD 0 []).length ∧ p.1 < (ref_chains.getD 0 []).length ∧
      p.2 < (model_chains.getD 1 []).length ∧ p.2 < (ref_chains.getD 1 []).length) :
    ((get_interface_atoms ip model_chains ref_chains types).1.map Atom.id).Perm
      ((get_interface_atoms ip model_chains ref_chains types).2.map Atom.id) ∧
    (get_interface_atoms ip model_chains ref_chains types).1.length
      = (get_interface_atoms ip model_chains ref_chains types).2.length := by
  have hnodup : ∀ i : ℕ, ∀ r ∈ (model_chains.getD i []) ++ (ref_chains.getD i []),
      (r.map Atom.id).Nodup := by
    intro i r hrmem
    rcases List.mem_append.mp hrmem with h | h
    · rcases getD_mem_or_eq model_chains i [] with hc | hc
      · exact hn _ (List.mem_append.mpr (Or.inl hc)) r h
      · rw [hc] at h; cases h
    · rcases getD_mem_or_eq ref_chains i [] with hc | hc
      · exact hn _ (List.mem_append.mpr (Or.inr hc)) r h
      · rw [hc] at h; cases h
  have h1 := interface_atoms_for_perm ((ip.map Prod.fst).dedup)
    (model_chains.getD 0 []) (ref_chains.getD 0 []) types
    (fun r hr => hnodup 0 r (List.mem_append.mpr (Or.inl hr)))
    (fun r hr => hnodup 0 r (List.mem_append.mpr (Or.inr hr)))
  have h2 := interface_atoms_for_perm ((ip.map Prod.snd).dedup)
    (model_chains.getD 1 []) (ref_chains.getD 1 []) types
    (fun r hr => hnodup 1 r (List.mem_append.mpr (Or.inl hr)))
    (fun r hr => hnodup 1 r (List.mem_append.mpr (Or.inr hr)))
  have hperm :
      ((get_interface_atoms ip model_chains ref_chains types).1.map Atom.id).Perm
        ((get_interface_atoms ip model_chains ref_chains types).2.map Atom.id) := by
    simp only [get_interface_atoms, List.map_append]
    exact h1.append h2
  refine ⟨hperm, ?_⟩
  have := hperm.length_eq
  simpa using this

/-- C9 (witness for the amended theorem): duplicate-free two-atom residues
on both sides; the selected identifier lists are permutations of each other
and the lengths agree. -/
theorem C9_interface_atoms_correspondence_witness :
    (∀ c ∈ ([[[⟨0, 0, 0, "CA", "C"⟩, ⟨0, 0, 1, "C", "C"⟩]], [[⟨5, 0, 0, "N", "N"⟩]]] : List Chain) ++
        ([[[⟨1, 0, 0, "CA", "C"⟩, ⟨1, 0, 1, "C", "C"⟩]], [[⟨6, 0, 0, "N", "N"⟩]]] : List Chain),
      ∀ r ∈ c, (r.map Atom.id).Nodup) ∧
    (∀ p ∈ ([((0 : ℕ), (0 : ℕ))] : List (ℕ × ℕ)),
      p.1 < (([[[⟨0, 0, 0, "CA", "C"⟩, ⟨0, 0, 1, "C", "C"⟩]], [[⟨5, 0, 0, "N", "N"⟩]]] : List Chain).getD 0 []).length ∧
      p.1 < (([[[⟨1, 0, 0, "CA", "C"⟩, ⟨1, 0, 1, "C", "C"⟩]], [[⟨6, 0, 0, "N", "N"⟩]]] : List Chain).getD 0 []).length ∧
      p.2 < (([[[⟨0, 0, 0, "CA", "C"⟩, ⟨0, 0, 1, "C", "C"⟩]], [[⟨5, 0, 0, "N", "N"⟩]]] : List Chain).getD 1 []).length ∧
      p.2 < (([[[⟨1, 0, 0, "CA", "C"⟩, ⟨1, 0, 1, "C", "C"⟩]], [[⟨6, 0, 0, "N", "N"⟩]]] : List Chain).getD 1 []).length) ∧
    (get_interface_atoms [(0, 0)]
      [[[⟨0, 0, 0, "CA", "C"⟩, ⟨0, 0, 1, "C", "C"⟩]], [[⟨5, 0, 0, "N", "N"⟩]]]
      [[[⟨1, 0, 0, "CA", "C"⟩, ⟨1, 0, 1, "C", "C"⟩]], [[⟨6, 0, 0, "N", "N"⟩]]]
      ["CA", "C", "N", "O"]).1.length
      = (get_interface_atoms [(0, 0)]
      [[[⟨0, 0, 0, "CA", "C"⟩, ⟨0, 0, 1, "C", "C"⟩]], [[⟨5, 0, 0, "N", "N"⟩]]]
      [[[⟨1, 0, 0, "CA", "C"⟩, ⟨1, 0, 1, "C", "C"⟩]], [[⟨6, 0, 0, "N", "N"⟩]]]
      ["CA", "C", "N", "O"]).2.length :=
  ⟨by with_unfolding_all decide, by with_unfolding_all decide,
   (C9_interface_atoms_correspondence [(0, 0)]
      [[[⟨0, 0, 0, "CA", "C"⟩, ⟨0, 0, 1, "C", "C"⟩]], [[⟨5, 0, 0, "N", "N"⟩]]]
      [[[⟨1, 0, 0, "CA", "C"⟩, ⟨1, 0, 1, "C", "C"⟩]], [[⟨6, 0, 0, "N", "N"⟩]]]
      ["CA", "C", "N", "O"]
      (by with_unfolding_all decide) (by with_unfolding_all decide)).2⟩

/-- The two lists collected by `alignLoop` always have equal length: a
match column appends to both or to neither. -/
lemma alignLoop_length_eq (cols : List AlnColumn) :
    ∀ (resA resB : Chain) (lastA lastB : Option Residue),
      (alignLoop cols resA resB lastA lastB).1.length
        = (alignLoop cols resA resB lastA lastB).2.length := by
  induction cols with
  | nil => intro _ _ _ _; rfl
  | cons c rest ih =>
    intro resA resB lastA lastB
    simp only [alignLoop]
    by_cases hm : c.2.1 = '|'
    · rw [if_pos hm]
      cases (if c.1 = '-' then lastA else resA.head?) <;>
        cases (if c.2.2 = '-' then lastB else resB.head?) <;>
        simp [ih]
    · rw [if_neg hm]
      exact ih _ _ _ _

/-- For a well-formed alignment, the residues collected by `alignLoop` are
subsequences of the two residue lists: every match column consumes and
collects a fresh residue from each chain, in order. -/
lemma alignLoop_sublist (cols : List AlnColumn) :
    ∀ (resA resB : Chain) (lastA lastB : Option Residue), WellFormedAln cols →
      List.Sublist (alignLoop cols resA resB lastA lastB).1 resA ∧
      List.Sublist (alignLoop cols resA resB lastA lastB).2 resB := by
  induction cols with
  | nil => intro resA resB _ _ _; exact ⟨List.nil_sublist _, List.nil_sublist _⟩
  | cons c rest ih =>
    intro resA resB lastA lastB hwf
    have hwfrest : WellFormedAln rest := fun d hd => hwf d (List.mem_cons_of_mem c hd)
    simp only [alignLoop]
    by_cases hm : c.2.1 = '|'
    · obtain ⟨hA, hB⟩ := hwf c (List.mem_cons_self c rest) hm
      rw [if_pos hm]
      simp only [if_neg hA, if_neg hB]
      cases resA with
      | nil =>
        cases resB with
        | nil => simpa using ih [] [] none none hwfrest
        | cons b tb =>
          simp only [List.head?_nil, List.head?_cons, List.tail_nil, List.tail_cons]
          refine ⟨(ih [] tb none (some b) hwfrest).1, ?_⟩
          exact ((ih [] tb none (some b) hwfrest).2).trans (List.sublist_cons_self b tb)
      | cons a ta =>
        cases resB with
        | nil =>
          simp only [List.head?_nil, List.head?_cons, List.tail_nil, List.tail_cons]
          refine ⟨?_, (ih ta [] (some a) none hwfrest).2⟩
          exact ((ih ta [] (some a) none hwfrest).1).trans (List.sublist_cons_self a ta)
        | cons b tb =>
          simp only [List.head?_cons, List.tail_cons]
          exact ⟨List.Sublist.cons₂ a (ih ta tb (some a) (some b) hwfrest).1,
            List.Sublist.cons₂ b (ih ta tb (some a) (some b) hwfrest).2⟩
    · rw [if_neg hm]
      by_cases hA : c.1 = '-' <;> by_cases hB : c.2.2 = '-' <;>
        simp only [if_pos, if_neg, hA, hB, if_true, if_false] <;>
        [skip; skip; skip; skip] <;>
        first
        | exact ih _ _ _ _ hwfrest
        | exact ⟨(ih _ _ _ _ hwfrest).1.trans (List.tail_sublist _),
            (ih _ _ _ _ hwfrest).2.trans (List.tail_sublist _)⟩
        | exact ⟨(ih _ _ _ _ hwfrest).1.trans (List.tail_sublist _),
            (ih _ _ _ _ hwfrest).2⟩
        | exact ⟨(ih _ _ _ _ hwfrest).1,
            (ih _ _ _ _ hwfrest).2.trans (List.tail_sublist _)⟩

/-- Equal chain lengths give equal all-atom distance-matrix shapes. -/
lemma matrixShape_eq_of_lengths {A A' B B' : Chain}
    (h1 : A.length = A'.length) (h2 : B.length = B'.length) :
    matrixShape (get_residue_distances A B true)
      = matrixShape (get_residue_distances A' B' true) := by
  simp only [get_residue_distances, if_true, matrixShape]
  cases A with
  | nil =>
    cases A' with
    | nil => simp
    | cons a' t' => simp at h1
  | cons a t =>
    cases A' with
    | nil => simp at h1
    | cons a' t' =>
      simp only [List.map_cons, List.length_cons, List.headD_cons, List.length_map]
      rw [h2]
      simpa using h1

/-- C10 failing input: native chain 1 has three Cβ residues, of which the
alignment covers only the first two (the model chain is two residues
long). -/
def c10_ref1 : Chain := [[⟨0, 0, 0, "CB", "C"⟩], [⟨0, 2, 0, "CB", "C"⟩], [⟨0, 1, 0, "CB", "C"⟩]]

/-- C10 failing input: the single-residue native chain 2. -/
def c10_ref2 : Chain := [[⟨1, 0, 0, "CB", "C"⟩]]

/-- C10 failing input: the two-residue model chain 1. -/
def c10_sample1 : Chain := [[⟨0, 0, 0, "CB", "C"⟩], [⟨0, 2, 0, "CB", "C"⟩]]

/-- C10 failing input: the alignment of model chain 1 against native chain
1 — the third native residue falls in a gap column and is dropped. -/
def c10_aln1 : List AlnColumn := [('A', '|', 'A'), ('B', '|', 'B'), ('-', '-', 'C')]

/-- C10: in capri_peptide mode the native pair has contacts (the evaluation
proceeds), the alignment-filtered native list for chain 1 holds 2 residues,
yet the interacting pairs are computed on the *full* native chains in Cβ
mode and contain row index 2 — not a valid index into the lists handed to
`get_interface_atoms` (an `IndexError` at run time). -/
theorem C10_capri_index_out_of_range :
    nat_total_count c10_ref1 c10_ref2 true ≠ 0 ∧
    (get_aligned_residues c10_sample1 c10_ref1 c10_aln1).2.length = 2 ∧
    (2, 0) ∈ get_interacting_pairs (get_residue_distances c10_ref1 c10_ref2 false)
      (interface_threshold true ^ 2) ∧
    ¬ 2 < (get_aligned_residues c10_sample1 c10_ref1 c10_aln1).2.length := by
  with_unfolding_all decide

/-- A zipped pairwise count is bounded by a count on the right list, when
the pair predicate forces the right-hand predicate. -/
lemma countP_zip_le_right {α : Type} (p : α → α → Bool) (q : α → Bool)
    (h : ∀ a b, p a b = true → q b = true) :
    ∀ (l1 l2 : List α), (l1.zip l2).countP (fun ab => p ab.1 ab.2) ≤ l2.countP q := by
  intro l1
  induction l1 with
  | nil => intro l2; simp
  | cons a t ih =>
    intro l2
    cases l2 with
    | nil => simp
    | cons b t2 =>
      simp only [List.zip_cons_cons, List.countP_cons]
      refine Nat.add_le_add (ih t2) ?_
      by_cases hp : p a b = true
      · simp [hp, h a b hp]
      · simp [hp]

/-- A zipped pairwise count is bounded by a count on the left list, when
the pair predicate forces the left-hand predicate. -/
lemma countP_zip_le_left {α : Type} (p : α → α → Bool) (q : α → Bool)
    (h : ∀ a b, p a b = true → q a = true) :
    ∀ (l1 l2 : List α), (l1.zip l2).countP (fun ab => p ab.1 ab.2) ≤ l1.countP q := by
  intro l1
  induction l1 with
  | nil => intro l2; simp
  | cons a t ih =>
    intro l2
    cases l2 with
    | nil => simp
    | cons b t2 =>
      simp only [List.zip_cons_cons, List.countP_cons]
      refine Nat.add_le_add (ih t2) ?_
      by_cases hp : p a b = true
      · simp [hp, h a b hp]
      · simp [hp]

/-- A `countZip2` count is bounded by `countBelow` of the second matrix whenever the
pair predicate forces the second entry below the threshold. -/
lemma countZip2_le_countBelow_right (t : ℚ) (p : WithTop ℚ → WithTop ℚ → Bool)
    (h : ∀ s n, p s n = true → n < (t : WithTop ℚ)) :
    ∀ (m1 m2 : List (List (WithTop ℚ))), countZip2 m1 m2 p ≤ countBelow m2 t := by
  intro m1
  induction m1 with
  | nil => intro m2; simp [countZip2]
  | cons r1 t1 ih =>
    intro m2
    cases m2 with
    | nil => simp [countZip2, countBelow]
    | cons r2 t2 =>
      simp only [countZip2, countBelow, List.zip_cons_cons, List.map_cons, List.sum_cons]
      refine Nat.add_le_add ?_ (ih t2)
      exact countP_zip_le_right p (fun d => decide (d < (t : WithTop ℚ)))
        (fun a b hab => decide_eq_true (h a b hab)) r1 r2

/-- A `countZip2` count is bounded by `countBelow` of the first matrix whenever the
pair predicate forces the first entry below the threshold. -/
lemma countZip2_le_countBelow_left (t : ℚ) (p : WithTop ℚ → WithTop ℚ → Bool)
    (h : ∀ s n, p s n = true → s < (t : WithTop ℚ)) :
    ∀ (m1 m2 : List (List (WithTop ℚ))), countZip2 m1 m2 p ≤ countBelow m1 t := by
  intro m1
  induction m1 with
  | nil => intro m2; simp [countZip2]
  | cons r1 t1 ih =>
    intro m2
    cases m2 with
    | nil => simp [countZip2, countBelow]
    | cons r2 t2 =>
      simp only [countZip2, countBelow, List.zip_cons_cons, List.map_cons, List.sum_cons]
      refine Nat.add_le_add ?_ (ih t2)
      exact countP_zip_le_left p (fun d => decide (d < (t : WithTop ℚ)))
        (fun a b hab => decide_eq_true (h a b hab)) r1 r2

/-- A mapped sum over a subsequence with a pointwise-smaller summand is
bounded by the mapped sum over the full list. -/
lemma sum_map_le_of_sublist {α : Type} {A' A : List α} (h : List.Sublist A' A)
    (f g : α → ℕ) (hfg : ∀ a, f a ≤ g a) :
    (A'.map f).sum ≤ (A.map g).sum := by
  induction h with
  | slnil => simp
  | cons a _ ih =>
    simp only [List.map_cons, List.sum_cons]
    exact ih.trans (Nat.le_add_left _ _)
  | cons₂ a _ ih =>
    simp only [List.map_cons, List.sum_cons]
    exact Nat.add_le_add (hfg a) ih

/-- The below-threshold count of an all-atom distance matrix, rowwise. -/
lemma countBelow_rd_eq (A B : Chain) (t : ℚ) :
    countBelow (get_residue_distances A B true) t
      = (A.map (fun r1 => B.countP (fun r2 => decide (resDist r1 r2 < (t : WithTop ℚ))))).sum := by
  unfold countBelow get_residue_distances
  rw [if_pos rfl]
  rw [List.map_map]
  refine congrArg List.sum (List.map_congr_left ?_)
  intro r1 _
  simp only [Function.comp_apply, List.countP_map]
  rfl

/-- Subsequences of both chains can only lose below-threshold entries:
every entry of the sub-matrix is an entry of the full matrix, at an index
pair given by the two subsequence embeddings. -/
lemma countBelow_matrix_mono {A' A B' B : Chain} (hA : List.Sublist A' A)
    (hB : List.Sublist B' B) (t : ℚ) :
    countBelow (get_residue_distances A' B' true) t
      ≤ countBelow (get_residue_distances A B true) t := by
  rw [countBelow_rd_eq A' B' t, countBelow_rd_eq A B t]
  exact sum_map_le_of_sublist hA _ _ (fun r1 => hB.countP_le _)

/-- The size-mismatch guard of `calc_DockQ` never fires: the sample and
native aligned distance matrices are built from the equal-length lists
returned by `get_aligned_residues`, so their shapes agree. -/
lemma calc_DockQ_shape_guard_ok (sc rc : Chain × Chain)
    (alns : List AlnColumn × List AlnColumn) :
    shape_guard
        (get_residue_distances (get_aligned_residues sc.1 rc.1 alns.1).1
          (get_aligned_residues sc.2 rc.2 alns.2).1 true)
        (get_residue_distances (get_aligned_residues sc.1 rc.1 alns.1).2
          (get_aligned_residues sc.2 rc.2 alns.2).2 true)
      = Except.ok () := by
  have heq : matrixShape (get_residue_distances (get_aligned_residues sc.1 rc.1 alns.1).1
        (get_aligned_residues sc.2 rc.2 alns.2).1 true)
      = matrixShape (get_residue_distances (get_aligned_residues sc.1 rc.1 alns.1).2
        (get_aligned_residues sc.2 rc.2 alns.2).2 true) :=
    matrixShape_eq_of_lengths
      (alignLoop_length_eq alns.1 sc.1 rc.1 none none)
      (alignLoop_length_eq alns.2 sc.2 rc.2 none none)
  unfold shape_guard
  rw [if_neg (not_not_intro heq)]

/-- When the native pair has no contacts, `calc_DockQ` returns `None`. -/
lemma calc_DockQ_none_of_no_contacts
    (superimpose_rms : List Atom → List Atom → ℚ)
    (fit_apply_rms : List (ℚ × ℚ × ℚ) → List (ℚ × ℚ × ℚ) → List (ℚ × ℚ × ℚ) →
      List (ℚ × ℚ × ℚ) → ℚ)
    (sc rc : Chain × Chain) (alns : List AlnColumn × List AlnColumn) (ca cp : Bool)
    (h : nat_total_count rc.1 rc.2 cp = 0) :
    calc_DockQ superimpose_rms fit_apply_rms sc rc alns ca cp = Except.ok none := by
  unfold calc_DockQ
  rw [if_pos h]

/-- The evaluation `calc_DockQ` never raises: the only raising path is the shape guard,
whose shapes always agree. -/
lemma calc_DockQ_ne_error
    (superimpose_rms : List Atom → List Atom → ℚ)
    (fit_apply_rms : List (ℚ × ℚ × ℚ) → List (ℚ × ℚ × ℚ) → List (ℚ × ℚ × ℚ) →
      List (ℚ × ℚ × ℚ) → ℚ)
    (sc rc : Chain × Chain) (alns : List AlnColumn × List AlnColumn) (ca cp : Bool)
    (e : String) :
    calc_DockQ superimpose_rms fit_apply_rms sc rc alns ca cp ≠ Except.error e := by
  unfold calc_DockQ
  by_cases hz : nat_total_count rc.1 rc.2 cp = 0
  · rw [if_pos hz]
    simp
  · rw [if_neg hz]
    intro hc
    simp only [] at hc
    rw [calc_DockQ_shape_guard_ok sc rc alns] at hc
    simp at hc

/-- C6: the two matrices compared by the `assert` are built from the
equal-length residue lists of `get_aligned_residues`, so their shapes always
agree and `calc_DockQ` can never raise the size-mismatch error — the error
branch is unreachable; the guard itself fails exactly on differing shapes
and the matrices flow into `get_fnat_stats` untouched (no truncation or
padding path exists). -/
theorem C6_size_mismatch_guard :
    (∀ sampleM refM : List (List (WithTop ℚ)),
      shape_guard sampleM refM = Except.error "Native and model have incompatible sizes"
        ↔ matrixShape sampleM ≠ matrixShape refM) ∧
    (∀ (superimpose_rms : List Atom → List Atom → ℚ)
       (fit_apply_rms : List (ℚ × ℚ × ℚ) → List (ℚ × ℚ × ℚ) → List (ℚ × ℚ × ℚ) →
         List (ℚ × ℚ × ℚ) → ℚ)
       (sc rc : Chain × Chain) (alns : List AlnColumn × List AlnColumn) (ca cp : Bool),
      matrixShape (get_residue_distances (get_aligned_residues sc.1 rc.1 alns.1).1
          (get_aligned_residues sc.2 rc.2 alns.2).1 true)
        = matrixShape (get_residue_distances (get_aligned_residues sc.1 rc.1 alns.1).2
          (get_aligned_residues sc.2 rc.2 alns.2).2 true) ∧
      ∀ e, calc_DockQ superimpose_rms fit_apply_rms sc rc alns ca cp ≠ Except.error e) := by
  constructor
  · intro m1 m2
    unfold shape_guard
    by_cases h : matrixShape m1 ≠ matrixShape m2
    · rw [if_pos h]
      simp [h]
    · rw [if_neg h]
      simp [h]
  · intro srms frms sc rc alns ca cp
    refine ⟨?_, fun e => calc_DockQ_ne_error srms frms sc rc alns ca cp e⟩
    exact matrixShape_eq_of_lengths
      (alignLoop_length_eq alns.1 sc.1 rc.1 none none)
      (alignLoop_length_eq alns.2 sc.2 rc.2 none none)

/-- Every record in the result of `runInterfaces` comes from an evaluation
of its chain pair that returned that record. -/
lemma runInterfaces_mem (f : String × String → Except String (Option DockQInfo)) :
    ∀ (ps : List (String × String)) (res : List ((String × String) × DockQInfo)),
      runInterfaces f ps = Except.ok res →
      ∀ p info, (p, info) ∈ res → f p = Except.ok (some info) := by
  intro ps
  induction ps with
  | nil =>
    intro res h p info hmem
    simp only [runInterfaces] at h
    injection h with h
    subst h
    cases hmem
  | cons q rest ih =>
    intro res h p info hmem
    simp only [runInterfaces] at h
    cases hq : f q with
    | error e => rw [hq] at h; cases h
    | ok o =>
      cases o with
      | none =>
        rw [hq] at h
        exact ih res h p info hmem
      | some i0 =>
        rw [hq] at h
        cases hrest : runInterfaces f rest with
        | error e => rw [hrest] at h; cases h
        | ok acc =>
          rw [hrest] at h
          injection h with h
          subst h
          rcases List.mem_cons.mp hmem with heq | hmem'
          · injection heq with heq1 heq2
            subst heq1
            subst heq2
            exact hq
          · exact ih acc hrest p info hmem'

/-- C4: a native chain pair whose all-atom native distance matrix has no
entry below the squared fnat threshold is not scoreable: `calc_DockQ`
returns `None` for it (whatever the model chains), and the pair is absent
from the per-mapping results map of `run_on_all_native_interfaces` — a
normal termination, not an error. -/
theorem C4_no_native_interface
    (superimpose_rms : List Atom → List Atom → ℚ)
    (fit_apply_rms : List (ℚ × ℚ × ℚ) → List (ℚ × ℚ × ℚ) → List (ℚ × ℚ × ℚ) →
      List (ℚ × ℚ × ℚ) → ℚ)
    (aligner : Chain → Chain → List AlnColumn)
    (model_structure native_structure : String → Chain)
    (chain_map : List (String × String)) (ca cp : Bool) (c1 c2 : String)
    (res : List ((String × String) × DockQInfo))
    (hzero : nat_total_count (native_structure c1) (native_structure c2) cp = 0)
    (hrun : run_on_all_native_interfaces superimpose_rms fit_apply_rms aligner
      model_structure native_structure chain_map ca cp = Except.ok res) :
    (c1, c2) ∉ res.map Prod.fst ∧
    ∀ mc : Chain × Chain,
      run_on_chains superimpose_rms fit_apply_rms aligner mc
        (native_structure c1, native_structure c2) ca cp = Except.ok none := by
  have hnone : ∀ mc : Chain × Chain,
      run_on_chains superimpose_rms fit_apply_rms aligner mc
        (native_structure c1, native_structure c2) ca cp = Except.ok none := by
    intro mc
    unfold run_on_chains
    exact calc_DockQ_none_of_no_contacts _ _ _ _ _ _ _ hzero
  refine ⟨?_, hnone⟩
  intro hmem
  rw [List.mem_map] at hmem
  obtain ⟨⟨p, info⟩, hin, hp⟩ := hmem
  simp only [] at hp
  subst hp
  unfold run_on_all_native_interfaces at hrun
  have hev := runInterfaces_mem _ _ _ hrun _ info hin
  simp only [] at hev
  split at hev
  · rw [hnone _] at hev
    simp at hev
  · simp at hev

/-- C4 witness input: a single-residue chain at the origin. -/
def c4_chainA : Chain := [[⟨0, 0, 0, "CA", "C"⟩]]

/-- C4 witness input: a single-residue chain 100 Å away — no contact. -/
def c4_chainB : Chain := [[⟨100, 0, 0, "CA", "C"⟩]]

/-- C4 witness input: a two-chain structure with no interface. -/
def c4_structure : String → Chain := fun c => if c = "A" then c4_chainA else c4_chainB

/-- C4 witness input: the external aligner's output for the identity case. -/
def c4_aligner : Chain → Chain → List AlnColumn := fun _ _ => [('A', '|', 'A')]

/-- C4 witness: the abstracted interface superposition. -/
def c4_irms_fn : List Atom → List Atom → ℚ := fun _ _ => 0

/-- C4 witness: the abstracted receptor-fit/ligand-measure step. -/
def c4_lrms_fn : List (ℚ × ℚ × ℚ) → List (ℚ × ℚ × ℚ) → List (ℚ × ℚ × ℚ) →
    List (ℚ × ℚ × ℚ) → ℚ := fun _ _ _ _ => 0

/-- C4 (witness): with no native contact between the two chains, the run
returns an empty results map and the pair evaluates to `None`. -/
theorem C4_no_native_interface_witness :
    nat_total_count (c4_structure "A") (c4_structure "B") false = 0 ∧
    run_on_all_native_interfaces c4_irms_fn c4_lrms_fn c4_aligner c4_structure
      c4_structure [("A", "A"), ("B", "B")] false false = Except.ok [] ∧
    ("A", "B") ∉ (([] : List ((String × String) × DockQInfo)).map Prod.fst) ∧
    run_on_chains c4_irms_fn c4_lrms_fn c4_aligner (c4_chainA, c4_chainB)
      (c4_structure "A", c4_structure "B") false false = Except.ok none :=
  ⟨by with_unfolding_all decide, by with_unfolding_all rfl,
   (C4_no_native_interface c4_irms_fn c4_lrms_fn c4_aligner c4_structure c4_structure
      [("A", "A"), ("B", "B")] false false "A" "B" []
      (by with_unfolding_all decide) (by with_unfolding_all rfl)).1,
   (C4_no_native_interface c4_irms_fn c4_lrms_fn c4_aligner c4_structure c4_structure
      [("A", "A"), ("B", "B")] false false "A" "B" []
      (by with_unfolding_all decide) (by with_unfolding_all rfl)).2
      (c4_chainA, c4_chainB)⟩

/-- The guarded fraction lies in [0, 1] when the numerator is bounded by
the denominator. -/
lemma fnat_guarded_bounds {a b : ℕ} (h : a ≤ b) :
    0 ≤ fnat_guarded a b ∧ fnat_guarded a b ≤ 1 := by
  unfold fnat_guarded
  split
  · exact ⟨le_refl 0, zero_le_one⟩
  · rename_i hb
    constructor
    · exact div_nonneg (Nat.cast_nonneg a) (Nat.cast_nonneg b)
    · rw [div_le_one (by exact_mod_cast Nat.pos_of_ne_zero hb)]
      exact_mod_cast h

/-- The fraction `fnonnat_guarded` is the same guarded fraction. -/
lemma fnonnat_guarded_bounds {a b : ℕ} (h : a ≤ b) :
    0 ≤ fnonnat_guarded a b ∧ fnonnat_guarded a b ≤ 1 :=
  fnat_guarded_bounds h

/-- C8: for every valid chain-pair evaluation (one that produces a record,
hence `nat_total > 0`) with well-formed aligner output, the statistics
satisfy `nat_correct ≤ nat_total`, `nonnat_count ≤ model_total`,
`Fnat ∈ [0,1]` and `Fnonnat ∈ [0,1]` — in particular `nat_correct`, counted
on the correspondence-filtered residue subsets, never exceeds `nat_total`,
counted on the untouched full native chains, because the filtered lists are
subsequences of the full chains and residue-pair distances depend only on
the two residues. -/
theorem C8_statistics_bounds
    (superimpose_rms : List Atom → List Atom → ℚ)
    (fit_apply_rms : List (ℚ × ℚ × ℚ) → List (ℚ × ℚ × ℚ) → List (ℚ × ℚ × ℚ) →
      List (ℚ × ℚ × ℚ) → ℚ)
    (sc rc : Chain × Chain) (alns : List AlnColumn × List AlnColumn) (ca cp : Bool)
    (info : DockQInfo)
    (h1 : WellFormedAln alns.1) (h2 : WellFormedAln alns.2)
    (hok : calc_DockQ superimpose_rms fit_apply_rms sc rc alns ca cp
      = Except.ok (some info)) :
    info.nat_correct ≤ info.nat_total ∧ info.nonnat_count ≤ info.model_total ∧
    0 ≤ info.fnat ∧ info.fnat ≤ 1 ∧ 0 ≤ info.fnonnat ∧ info.fnonnat ≤ 1 := by
  unfold calc_DockQ at hok
  by_cases hz : nat_total_count rc.1 rc.2 cp = 0
  · rw [if_pos hz] at hok
    simp at hok
  · rw [if_neg hz] at hok
    simp only [] at hok
    rw [calc_DockQ_shape_guard_ok sc rc alns] at hok
    simp only [] at hok
    rw [Except.ok.injEq, Option.some.injEq] at hok
    subst hok
    have hsub1 := alignLoop_sublist alns.1 sc.1 rc.1 none none h1
    have hsub2 := alignLoop_sublist alns.2 sc.2 rc.2 none none h2
    have hcorrect :
        (get_fnat_stats
          (get_residue_distances (get_aligned_residues sc.1 rc.1 alns.1).1
            (get_aligned_residues sc.2 rc.2 alns.2).1 true)
          (get_residue_distances (get_aligned_residues sc.1 rc.1 alns.1).2
            (get_aligned_residues sc.2 rc.2 alns.2).2 true)
          (fnat_threshold cp)).nat_correct
        ≤ nat_total_count rc.1 rc.2 cp := by
      simp only [get_fnat_stats]
      refine le_trans (countZip2_le_countBelow_right (fnat_threshold cp ^ 2) _ ?_ _ _) ?_
      · intro s n hsn
        rw [Bool.and_eq_true, decide_eq_true_eq, decide_eq_true_eq] at hsn
        exact hsn.2
      · unfold nat_total_count
        exact countBelow_matrix_mono hsub1.2 hsub2.2 _
    have hnonnat :
        (get_fnat_stats
          (get_residue_distances (get_aligned_residues sc.1 rc.1 alns.1).1
            (get_aligned_residues sc.2 rc.2 alns.2).1 true)
          (get_residue_distances (get_aligned_residues sc.1 rc.1 alns.1).2
            (get_aligned_residues sc.2 rc.2 alns.2).2 true)
          (fnat_threshold cp)).nonnat_count
        ≤ (get_fnat_stats
          (get_residue_distances (get_aligned_residues sc.1 rc.1 alns.1).1
            (get_aligned_residues sc.2 rc.2 alns.2).1 true)
          (get_residue_distances (get_aligned_residues sc.1 rc.1 alns.1).2
            (get_aligned_residues sc.2 rc.2 alns.2).2 true)
          (fnat_threshold cp)).model_total := by
      simp only [get_fnat_stats]
      refine countZip2_le_countBelow_left (fnat_threshold cp ^ 2) _ ?_ _ _
      intro s n hsn
      rw [Bool.and_eq_true, decide_eq_true_eq] at hsn
      exact hsn.1
    refine ⟨hcorrect, hnonnat, ?_, ?_, ?_, ?_⟩
    · exact (fnat_guarded_bounds hcorrect).1
    · exact (fnat_guarded_bounds hcorrect).2
    · exact (fnonnat_guarded_bounds hnonnat).1
    · exact (fnonnat_guarded_bounds hnonnat).2

/-- C8 witness input: a single-residue chain at the origin. -/
def c8_chain1 : Chain := [[⟨0, 0, 0, "CA", "C"⟩]]

/-- C8 witness input: a single-residue chain 1 Å away — one contact. -/
def c8_chain2 : Chain := [[⟨1, 0, 0, "CA", "C"⟩]]

/-- C8 witness input: the identity alignment column. -/
def c8_aln : List AlnColumn := [('A', '|', 'A')]

/-- C8 witness: the abstracted interface superposition. -/
def c8_irms_fn : List Atom → List Atom → ℚ := fun _ _ => 0

/-- C8 witness: the abstracted receptor-fit/ligand-measure step. -/
def c8_lrms_fn : List (ℚ × ℚ × ℚ) → List (ℚ × ℚ × ℚ) → List (ℚ × ℚ × ℚ) →
    List (ℚ × ℚ × ℚ) → ℚ := fun _ _ _ _ => 0

/-- C8 witness: the record produced on the witness input. -/
def c8_info : DockQInfo :=
  match calc_DockQ c8_irms_fn c8_lrms_fn (c8_chain1, c8_chain2) (c8_chain1, c8_chain2)
      (c8_aln, c8_aln) false false with
  | Except.ok (some i) => i
  | _ =>
    { F1 := 0, DockQ := 0, irms := 0, Lrms := 0, fnat := 0, nat_correct := 0,
      nat_total := 0, fnonnat := 0, nonnat_count := 0, model_total := 0,
      len1 := 0, len2 := 0, class1 := "", class2 := "" }

/-- C8 (witness): a concrete scoring of a native against itself. -/
theorem C8_statistics_bounds_witness :
    WellFormedAln c8_aln ∧
    calc_DockQ c8_irms_fn c8_lrms_fn (c8_chain1, c8_chain2) (c8_chain1, c8_chain2)
      (c8_aln, c8_aln) false false = Except.ok (some c8_info) ∧
    c8_info.nat_correct ≤ c8_info.nat_total ∧ c8_info.nonnat_count ≤ c8_info.model_total ∧
    0 ≤ c8_info.fnat ∧ c8_info.fnat ≤ 1 ∧ 0 ≤ c8_info.fnonnat ∧ c8_info.fnonnat ≤ 1 :=
  ⟨by unfold WellFormedAln; with_unfolding_all decide,
   by with_unfolding_all rfl,
   (C8_statistics_bounds c8_irms_fn c8_lrms_fn (c8_chain1, c8_chain2)
      (c8_chain1, c8_chain2) (c8_aln, c8_aln) false false c8_info
      (by unfold WellFormedAln; with_unfolding_all decide)
      (by unfold WellFormedAln; with_unfolding_all decide)
      (by with_unfolding_all rfl)).1,
   (C8_statistics_bounds c8_irms_fn c8_lrms_fn (c8_chain1, c8_chain2)
      (c8_chain1, c8_chain2) (c8_aln, c8_aln) false false c8_info
      (by unfold WellFormedAln; with_unfolding_all decide)
      (by unfold WellFormedAln; with_unfolding_all decide)
      (by with_unfolding_all rfl)).2⟩

/-- C6 (witness): the guard fires on concretely mismatched shapes, and a
concrete evaluation raises no error. -/
theorem C6_size_mismatch_guard_witness :
    (shape_guard [[(1 : WithTop ℚ)]] []
        = Except.error "Native and model have incompatible sizes"
      ↔ matrixShape [[(1 : WithTop ℚ)]] ≠ matrixShape ([] : List (List (WithTop ℚ)))) ∧
    calc_DockQ (fun _ _ => 0) (fun _ _ _ _ => 0) ([], []) ([], []) ([], [])
      false false ≠ Except.error "Native and model have incompatible sizes" :=
  ⟨C6_size_mismatch_guard.1 [[(1 : WithTop ℚ)]] [],
   (C6_size_mismatch_guard.2 (fun _ _ => 0) (fun _ _ _ _ => 0) ([], []) ([], [])
      ([], []) false false).2 "Native and model have incompatible sizes"⟩

/-- C7 (witness): the injectivity half of the theorem applied at a concrete
offset and number. -/
theorem C7_number_zero_collides_with_gap_witness :
    numbering_token 45 0 = numbering_token 45 0 ∧ (0 : ℤ) = 0 :=
  ⟨rfl, C7_number_zero_collides_with_gap.2.2.2 45 0 0 rfl⟩

end DockQ
